import Mathlib

/-!
Verification development for the arena-rosnav task-generator core:
the configuration store with its live-reconfiguration callback
(`task_generator/constants.py`) and the Gazebo backend adapter
(`task_generator/simulators/gazebo_simulator.py`), shallowly embedded.
-/

namespace ArenaRosnav

/-! ### Python error values

Errors that the embedded Python code can raise: `KeyError` from a dict
lookup with a missing key, `NameError` from referencing an unbound name,
and the transport-level service exception of the middleware. -/

inductive PyError where
  | keyError (key : String)
  | nameError (name : String)
  | serviceException
  | valueError
deriving DecidableEq, Repr

/-! ### RNG model

`np.random.default_rng(seed)` with `seed = None` draws a seed from OS
entropy (non-deterministic); with an integer it seeds deterministically.
We model a generator by the seed it was built from and a flag recording
whether that seed came from entropy. The raw output stream of a generator
is a function of its seed, supplied externally as `raw`. -/

structure RNG where
  initSeed : ℤ
  fromEntropy : Bool
deriving DecidableEq, Repr

/-- Model of `np.random.default_rng(seed)`: `none` means non-deterministic seeding
from an OS entropy pool, modelled by the explicit `entropy` argument. -/
def default_rng (seed : Option ℤ) (entropy : ℤ) : RNG :=
  match seed with
  | some s => ⟨s, false⟩
  | none => ⟨entropy, true⟩

/-- The output stream of a generator, given the family `raw` of underlying
streams indexed by seed. Two generators with the same seed share a stream. -/
def RNG.stream (r : RNG) (raw : ℤ → ℕ → ℝ) : ℕ → ℝ :=
  raw r.initSeed

/-! ### Float values with an infinity sentinel

`DESIRED_EPISODES` and `TIMEOUT` hold `float("inf")` when the configured
input is negative; other fields hold plain finite values (modelled by ℚ). -/

inductive RFloat where
  | fin (q : ℚ)
  | inf
deriving DecidableEq, Repr

/-! ### Configuration store (`TaskConfig` in `constants.py`) -/

structure TaskConfig_General where
  WAIT_FOR_SERVICE_TIMEOUT : ℚ
  MAX_RESET_FAIL_TIMES : ℤ
  RNG : RNG
  DESIRED_EPISODES : RFloat
deriving DecidableEq, Repr

structure TaskConfig_Robot where
  GOAL_TOLERANCE_RADIUS : ℚ
  GOAL_TOLERANCE_ANGLE : ℚ
  SPAWN_ROBOT_SAFE_DIST : ℚ
  TIMEOUT : RFloat
deriving DecidableEq, Repr

structure TaskConfig_Obstacles where
  OBSTACLE_MAX_RADIUS : ℚ
deriving DecidableEq, Repr

structure TaskConfig where
  General : TaskConfig_General
  Robot : TaskConfig_Robot
  Obstacles : TaskConfig_Obstacles
deriving DecidableEq, Repr

/-! ### Reconfiguration payload

The `config` dict passed to `_cb_reconfigure`. A key that is absent from
the dict is an `Option` that is `none`; accessing it raises `KeyError`. -/

structure ReconfigurePayload where
  RANDOM_seed : Option ℤ
  episodes : Option ℤ
  goal_radius : Option ℚ
  goal_tolerance_angle : Option ℚ
  timeout : Option ℚ
deriving DecidableEq, Repr

/-- Embedding of `_cb_reconfigure(config)` from `constants.py`, lines 127-135. The
callback mutates the global `Config` field by field, reading the dict keys
in source order (`RANDOM_seed`, `episodes`, `goal_radius`,
`goal_tolerance_angle`, `timeout`). A missing key raises `KeyError` at
that line; the global retains every assignment already performed. The
result is the final state of the global together with the raised error,
if any. `entropy` feeds `np.random.default_rng(None)`. -/
def cb_reconfigure (entropy : ℤ) (cfg : TaskConfig) (p : ReconfigurePayload) :
    TaskConfig × Option PyError :=
  match p.RANDOM_seed with
  | none => (cfg, some (.keyError "RANDOM_seed"))
  | some s =>
    let cfg := { cfg with General := { cfg.General with
      RNG := default_rng (if s ≥ 0 then some s else none) entropy } }
    match p.episodes with
    | none => (cfg, some (.keyError "episodes"))
    | some e =>
      let cfg := { cfg with General := { cfg.General with
        DESIRED_EPISODES := if e < 0 then .inf else .fin e } }
      match p.goal_radius with
      | none => (cfg, some (.keyError "goal_radius"))
      | some gr =>
        let cfg := { cfg with Robot := { cfg.Robot with
          GOAL_TOLERANCE_RADIUS := gr } }
        match p.goal_tolerance_angle with
        | none => (cfg, some (.keyError "goal_tolerance_angle"))
        | some ga =>
          let cfg := { cfg with Robot := { cfg.Robot with
            GOAL_TOLERANCE_ANGLE := ga } }
          match p.timeout with
          | none => (cfg, some (.keyError "timeout"))
          | some t =>
            let cfg := { cfg with Robot := { cfg.Robot with
              TIMEOUT := if t < 0 then .inf else .fin t } }
            (cfg, none)

/-- Defaults from `Constants.Defaults` (`constants.py`, lines 85-95). -/
def Defaults_TIMEOUT_WAIT_FOR_SERVICE : ℚ := 60
def Defaults_MAX_RESET_FAIL_TIMES : ℤ := 10
def Defaults_GOAL_RADIUS : ℚ := 1
def Defaults_SPAWN_ROBOT_SAFE_DIST : ℚ := 1/4
def Defaults_OBSTACLE_MAX_RADIUS : ℚ := 15

/-- A concrete initial configuration snapshot for counterexamples. -/
def cfg0 : TaskConfig :=
  { General :=
      { WAIT_FOR_SERVICE_TIMEOUT := Defaults_TIMEOUT_WAIT_FOR_SERVICE
        MAX_RESET_FAIL_TIMES := Defaults_MAX_RESET_FAIL_TIMES
        RNG := ⟨0, false⟩
        DESIRED_EPISODES := .fin 3 }
    Robot :=
      { GOAL_TOLERANCE_RADIUS := Defaults_GOAL_RADIUS
        GOAL_TOLERANCE_ANGLE := 1/2
        SPAWN_ROBOT_SAFE_DIST := Defaults_SPAWN_ROBOT_SAFE_DIST
        TIMEOUT := .fin 9 }
    Obstacles := { OBSTACLE_MAX_RADIUS := Defaults_OBSTACLE_MAX_RADIUS } }

/-! ### Pedsim parameter loader (`lp` in `constants.py`, lines 165-185)

`lp(parameter, fallback)` fetches a parameter value once, then returns a
resolver closure `lambda x: x if x is not None else gen()`, where `gen`
draws a clamped normal sample when the fetched value was a list, and
returns the fetched value itself otherwise. -/

/-- A value fetched from the parameter server: a number, a string, or a
list of numbers (a range). -/
inductive ParamVal where
  | num (q : ℚ)
  | str (s : String)
  | list (xs : List ℚ)
deriving DecidableEq, Repr

/-- A running generator: its raw standard-normal output stream and the
position of the next draw. `Generator.normal(mean, std)` scales the next
raw sample and advances the position. -/
structure RNGRun where
  stream : ℕ → ℚ
  pos : ℕ

/-- Model of `rng.normal(mean, std)`: one fresh sample from the normal distribution
with the given mean and standard deviation, i.e. `mean + std * raw` where
`raw` is the next raw standard-normal draw of the shared stream. -/
def RNGRun.normal (r : RNGRun) (mean std : ℚ) : ℚ × RNGRun :=
  (mean + std * r.stream r.pos, ⟨r.stream, r.pos + 1⟩)

/-- The generator part that `lp` builds at load time: either a constant
(the fetched scalar value) or a range `[lo, hi]` (the first two elements
of a fetched list, bound by `lo, hi = val[:2]`). -/
inductive LPGen where
  | const (v : ParamVal)
  | range (lo hi : ℚ)

/-- Load phase of `lp`: given the fetched value `val`, build the generator.
`lo, hi = val[:2]` raises `ValueError` when the list has fewer than two
elements. -/
def lp (val : ParamVal) : Except PyError LPGen :=
  match val with
  | .list (lo :: hi :: _) => .ok (.range lo hi)
  | .list _ => .error .valueError
  | v => .ok (.const v)

/-- Embedding of `gen()` inside `lp`: the constant case returns the loaded value and
consumes no randomness; the range case computes
`min(hi, max(lo, Config.General.RNG.normal((hi + lo) / 2, (hi - lo) / 6)))`. -/
def LPGen.gen : LPGen → RNGRun → ParamVal × RNGRun
  | .const v, r => (v, r)
  | .range lo hi, r =>
    let s := r.normal ((hi + lo) / 2) ((hi - lo) / 6)
    (.num (min hi (max lo s.1)), s.2)

/-- The resolver closure returned by `lp`:
`lambda x: x if x is not None else gen()`. -/
def lpResolve (g : LPGen) (x : Option ParamVal) (r : RNGRun) : ParamVal × RNGRun :=
  match x with
  | some v => (v, r)
  | none => g.gen r

/-! ### Gazebo adapter: module namespace and `after_reset_task`

`gazebo_simulator.py` imports (lines 1-15) bind exactly these module-level
names. `rospy` is not among them: the file references
`rospy.service.ServiceException` and `rospy.logwarn` without importing
`rospy`, so evaluating the `except` clause raises `NameError`. -/

def gazeboModuleNames : List String :=
  ["rclpy", "Node", "SpawnEntity", "DeleteEntity", "SetEntityPose",
   "ControlWorld", "EntityFactory", "WorldControl", "PoseStamped", "Pose",
   "Quaternion", "Point", "sys", "SimulatorFactory", "rosparam_get",
   "quaternion_from_euler", "Config", "Constants", "BaseSimulator",
   "ModelType", "Namespace", "PositionOrientation", "RobotProps",
   "GazeboSimulator"]

/-- Python name resolution in the module scope of `gazebo_simulator.py`. -/
def lookupModuleName (n : String) : Except PyError Unit :=
  if n ∈ gazeboModuleNames then .ok () else .error (.nameError n)

/-- Embedding of `GazeboSimulator.after_reset_task` (lines 69-73): run
`self.unpause_simulation()` inside `try`; on an exception, evaluate the
`except rospy.service.ServiceException` clause, which first resolves the
name `rospy` in the module scope — an unbound name raises `NameError`,
which propagates in place of the original exception. Were the name bound,
a matching service exception would be logged and swallowed. -/
def after_reset_task (unpauseResult : Except PyError Bool) : Except PyError Unit :=
  match unpauseResult with
  | .ok _ => .ok ()
  | .error e =>
    match lookupModuleName "rospy" with
    | .error ne => .error ne
    | .ok _ => if e = .serviceException then .ok () else .error e

/-! ### Gazebo adapter: construction-time service waits

`GazeboSimulator.__init__` (lines 56-61) calls `wait_for_service()` on
each of the four service clients with no timeout argument, i.e.
`timeout_sec = None`: the call blocks until the service is available,
indefinitely if it never becomes available. A service's availability is
modelled by the absolute time at which it first reports ready (`none` =
never). -/

structure ServiceAvailability where
  spawn_entity : Option ℕ
  delete_entity : Option ℕ
  set_entity_pose : Option ℕ
  control_world : Option ℕ
deriving DecidableEq, Repr

/-- Model of `client.wait_for_service(timeout_sec)` started at time `start`:
with `timeout_sec = none` it returns at the time the service is available
(never, if it never is); with a finite timeout it would return by
`start + timeout` at the latest. The source only ever passes `none`. -/
def wait_for_service (start : ℕ) (available_at : Option ℕ) (timeout_sec : Option ℕ) :
    Option ℕ :=
  match available_at, timeout_sec with
  | some t, none => some (max start t)
  | none, none => none
  | some t, some tmo => some (min (max start t) (start + tmo))
  | none, some tmo => some (start + tmo)

inductive ConstructionOutcome where
  | ready (t : ℕ)
  | blocked
deriving DecidableEq, Repr

/-- The sequence of readiness waits in `GazeboSimulator.__init__`: each
`wait_for_service()` call passes no timeout; the next wait starts when the
previous one returns; construction reaches the ready state when the last
wait returns, and blocks forever at the first service that never becomes
available. No configured timeout is consulted. -/
def gazebo_init_wait (s : ServiceAvailability) : ConstructionOutcome :=
  match wait_for_service 0 s.spawn_entity none with
  | none => .blocked
  | some t1 =>
    match wait_for_service t1 s.delete_entity none with
    | none => .blocked
    | some t2 =>
      match wait_for_service t2 s.set_entity_pose none with
      | none => .blocked
      | some t3 =>
        match wait_for_service t3 s.control_world none with
        | none => .blocked
        | some t4 => .ready t4

/-! ### Gazebo adapter: pose construction at the call boundary

The domain pose type carries a single orientation angle. `move_entity`,
`spawn_entity` and `_publish_goal` each build the engine pose with
`quaternion_from_euler(0.0, 0.0, orientation, axes="sxyz")`.
`quaternion_from_euler` is `tf_transformations.quaternion_from_euler`,
embedded here for the static `sxyz` axis convention the adapter uses
(first axis x, no parity swap, no repetition, static frame); the result
is in ROS `(x, y, z, w)` field order. -/

structure PositionOrientation where
  x : ℝ
  y : ℝ
  orientation : ℝ

structure Quat where
  x : ℝ
  y : ℝ
  z : ℝ
  w : ℝ

structure Point3 where
  x : ℝ
  y : ℝ
  z : ℝ

structure GzPose where
  position : Point3
  orientation : Quat

/-- Embedding of `tf_transformations.quaternion_from_euler(ai, aj, ak, axes="sxyz")`:
half-angle products, `(x, y, z, w)` order. -/
noncomputable def quaternion_from_euler (ai aj ak : ℝ) : Quat :=
  let ci := Real.cos (ai / 2)
  let si := Real.sin (ai / 2)
  let cj := Real.cos (aj / 2)
  let sj := Real.sin (aj / 2)
  let ck := Real.cos (ak / 2)
  let sk := Real.sin (ak / 2)
  let cc := ci * ck
  let cs := ci * sk
  let sc := si * ck
  let ss := si * sk
  { x := cj * sc - sj * cs
    y := cj * ss + sj * cc
    z := cj * cs - sj * sc
    w := cj * cc + sj * ss }

/-- The pose placed in the `SetEntityPose` request by
`GazeboSimulator.move_entity` (lines 77-86). -/
noncomputable def move_entity_pose (position : PositionOrientation) : GzPose :=
  { position := ⟨position.x, position.y, 0⟩
    orientation := quaternion_from_euler 0 0 position.orientation }

/-- The pose placed in the `SpawnEntity` request by
`GazeboSimulator.spawn_entity` (lines 88-105), built from
`entity.position`. -/
noncomputable def spawn_entity_pose (entityPosition : PositionOrientation) : GzPose :=
  { position := ⟨entityPosition.x, entityPosition.y, 0⟩
    orientation := quaternion_from_euler 0 0 entityPosition.orientation }

/-- The pose of the `PoseStamped` message published by
`GazeboSimulator._publish_goal` (lines 139-148): position components are
copied and orientation is converted the same way (the message's default z
stays 0). -/
noncomputable def publish_goal_pose (goal : PositionOrientation) : GzPose :=
  { position := ⟨goal.x, goal.y, 0⟩
    orientation := quaternion_from_euler 0 0 goal.orientation }

/-! ### Gazebo adapter: node-name derivation

`GazeboSimulator.__init__` (lines 19-25):
`node_name = namespace.strip('/').replace('/', '_')`, falling back to
`"gazebo_simulator"` when the result is empty. -/

/-- Python `s.strip(c)` for a single strip character: remove every leading
and every trailing occurrence of `c`. -/
def pyStripChar (s : String) (c : Char) : String :=
  ⟨((s.data.dropWhile (· = c)).reverse.dropWhile (· = c)).reverse⟩

/-- Python `s.replace(a, b)` for single-character arguments: replace every
occurrence of `a` by `b`. -/
def pyReplaceChar (s : String) (a b : Char) : String :=
  ⟨s.data.map (fun ch => if ch = a then b else ch)⟩

/-- The node name computed in `GazeboSimulator.__init__`. -/
def gazebo_node_name (namespc : String) : String :=
  let node_name := pyReplaceChar (pyStripChar namespc '/') '/' '_'
  if node_name = "" then "gazebo_simulator" else node_name

/-! ### Helper lemmas about `cb_reconfigure` -/

/-- When the `RANDOM_seed` key is present, the RNG field of the resulting
snapshot is the freshly constructed generator, in every control path. -/
theorem cb_reconfigure_rng_eq (entropy : ℤ) (cfg : TaskConfig)
    (p : ReconfigurePayload) (s : ℤ) (hs : p.RANDOM_seed = some s) :
    (cb_reconfigure entropy cfg p).1.General.RNG
      = default_rng (if s ≥ 0 then some s else none) entropy := by
  rcases p with ⟨s', e, gr, ga, t⟩
  simp only at hs
  subst hs
  cases e <;> cases gr <;> cases ga <;> cases t <;>
    simp [cb_reconfigure]

/-! ### Claim theorems -/

/-- C5. For every explicit non-null override value `v` and every configured
default or range, the resolver returned by `lp` maps `v` to `v` unchanged
and consumes no randomness (the RNG state is returned untouched). -/
theorem lp_resolve_explicit_override (g : LPGen) (v : ParamVal) (r : RNGRun) :
    lpResolve g (some v) r = (v, r) :=
  rfl

/-- C6. For a reconfiguration payload carrying all expected keys,
`_cb_reconfigure` sets `DESIRED_EPISODES` to the infinity sentinel when
`episodes < 0` and to the given value otherwise, and sets `TIMEOUT` to the
infinity sentinel when `timeout < 0` and to the given value otherwise. -/
theorem reconfigure_infinity_sentinels (entropy : ℤ) (cfg : TaskConfig)
    (p : ReconfigurePayload) (s e : ℤ) (gr ga t : ℚ)
    (hs : p.RANDOM_seed = some s) (he : p.episodes = some e)
    (hgr : p.goal_radius = some gr) (hga : p.goal_tolerance_angle = some ga)
    (ht : p.timeout = some t) :
    (cb_reconfigure entropy cfg p).1.General.DESIRED_EPISODES
        = (if e < 0 then RFloat.inf else RFloat.fin e)
    ∧ (cb_reconfigure entropy cfg p).1.Robot.TIMEOUT
        = (if t < 0 then RFloat.inf else RFloat.fin t) := by
  rcases p with ⟨s', e', gr', ga', t'⟩
  simp only at hs he hgr hga ht
  subst hs; subst he; subst hgr; subst hga; subst ht
  simp [cb_reconfigure]

/-- Witness for C6: `episodes = -1` yields the infinity sentinel and
`episodes = 5` yields the finite value `5`. -/
theorem reconfigure_infinity_sentinels_witness :
    (cb_reconfigure 0 cfg0 ⟨some 1, some (-1), some 1, some 1, some (-2)⟩).1.General.DESIRED_EPISODES
        = RFloat.inf
    ∧ (cb_reconfigure 0 cfg0 ⟨some 1, some 5, some 1, some 1, some 7⟩).1.General.DESIRED_EPISODES
        = RFloat.fin 5
    ∧ (cb_reconfigure 0 cfg0 ⟨some 1, some (-1), some 1, some 1, some (-2)⟩).1.Robot.TIMEOUT
        = RFloat.inf := by
  have h1 := reconfigure_infinity_sentinels 0 cfg0
    ⟨some 1, some (-1), some 1, some 1, some (-2)⟩ 1 (-1) 1 1 (-2)
    rfl rfl rfl rfl rfl
  have h2 := reconfigure_infinity_sentinels 0 cfg0
    ⟨some 1, some 5, some 1, some 1, some 7⟩ 1 5 1 1 7
    rfl rfl rfl rfl rfl
  refine ⟨?_, ?_, ?_⟩
  · simpa using h1.1
  · simpa using h2.1
  · simpa using h1.2

/-- C7. When the payload's `RANDOM_seed` is negative, the RNG is rebuilt
from a non-deterministic entropy seed; when it is non-negative the RNG is
rebuilt deterministically from the given value, so two reconfigurations
with the same non-negative seed produce generators with identical output
streams, whatever the entropy inputs and prior snapshots were. -/
theorem reconfigure_seed_determinism (entropy entropy' : ℤ)
    (cfg cfg' : TaskConfig) (p p' : ReconfigurePayload) (s : ℤ)
    (hs : p.RANDOM_seed = some s) (hs' : p'.RANDOM_seed = some s) :
    (s < 0 →
      (cb_reconfigure entropy cfg p).1.General.RNG = default_rng none entropy
      ∧ ((cb_reconfigure entropy cfg p).1.General.RNG).fromEntropy = true)
    ∧ (0 ≤ s →
      (cb_reconfigure entropy cfg p).1.General.RNG = ⟨s, false⟩
      ∧ ∀ raw : ℤ → ℕ → ℝ,
          RNG.stream (cb_reconfigure entropy cfg p).1.General.RNG raw
            = RNG.stream (cb_reconfigure entropy' cfg' p').1.General.RNG raw) := by
  have h := cb_reconfigure_rng_eq entropy cfg p s hs
  have h' := cb_reconfigure_rng_eq entropy' cfg' p' s hs'
  constructor
  · intro hneg
    rw [h, if_neg (by omega)]
    exact ⟨rfl, rfl⟩
  · intro hpos
    rw [h, h', if_pos (by omega)]
    exact ⟨rfl, fun raw => rfl⟩

/-- Witness for C7: two reconfigurations with seed `42` but different
entropy inputs and different prior snapshots agree on the generator and
its stream; a reconfiguration with seed `-3` marks the generator as
entropy-seeded. -/
theorem reconfigure_seed_determinism_witness :
    ((cb_reconfigure 11 cfg0 ⟨some 42, some 1, some 1, some 1, some 1⟩).1.General.RNG
        = ⟨42, false⟩
      ∧ ∀ raw : ℤ → ℕ → ℝ,
          RNG.stream (cb_reconfigure 11 cfg0 ⟨some 42, some 1, some 1, some 1, some 1⟩).1.General.RNG raw
            = RNG.stream (cb_reconfigure 99 cfg0 ⟨some 42, some 2, some 2, some 2, some 2⟩).1.General.RNG raw)
    ∧ ((cb_reconfigure 11 cfg0 ⟨some (-3), some 1, some 1, some 1, some 1⟩).1.General.RNG).fromEntropy
        = true := by
  refine ⟨?_, ?_⟩
  · exact (reconfigure_seed_determinism 11 99 cfg0 cfg0
      ⟨some 42, some 1, some 1, some 1, some 1⟩
      ⟨some 42, some 2, some 2, some 2, some 2⟩ 42 rfl rfl).2 (by norm_num)
  · exact ((reconfigure_seed_determinism 11 99 cfg0 cfg0
      ⟨some (-3), some 1, some 1, some 1, some 1⟩
      ⟨some (-3), some 2, some 2, some 2, some 2⟩ (-3) rfl rfl).1 (by norm_num)).2

/-- C9. Every invocation of the reconfiguration callback — whatever the
payload, including payloads with missing keys — leaves
`WAIT_FOR_SERVICE_TIMEOUT`, `MAX_RESET_FAIL_TIMES`,
`SPAWN_ROBOT_SAFE_DIST` and `OBSTACLE_MAX_RADIUS` unchanged: only the
RNG, `DESIRED_EPISODES`, `GOAL_TOLERANCE_RADIUS`, `GOAL_TOLERANCE_ANGLE`
and `TIMEOUT` fields are ever assigned. -/
theorem reconfigure_frame_condition (entropy : ℤ) (cfg : TaskConfig)
    (p : ReconfigurePayload) :
    (cb_reconfigure entropy cfg p).1.General.WAIT_FOR_SERVICE_TIMEOUT
        = cfg.General.WAIT_FOR_SERVICE_TIMEOUT
    ∧ (cb_reconfigure entropy cfg p).1.General.MAX_RESET_FAIL_TIMES
        = cfg.General.MAX_RESET_FAIL_TIMES
    ∧ (cb_reconfigure entropy cfg p).1.Robot.SPAWN_ROBOT_SAFE_DIST
        = cfg.Robot.SPAWN_ROBOT_SAFE_DIST
    ∧ (cb_reconfigure entropy cfg p).1.Obstacles.OBSTACLE_MAX_RADIUS
        = cfg.Obstacles.OBSTACLE_MAX_RADIUS := by
  rcases p with ⟨s, e, gr, ga, t⟩
  cases s <;> cases e <;> cases gr <;> cases ga <;> cases t <;>
    simp [cb_reconfigure]

/-- C1 counterexample. A payload carrying `RANDOM_seed` and `episodes`
but missing `goal_radius` makes `_cb_reconfigure` raise `KeyError` — yet
`DESIRED_EPISODES` has already been overwritten (from `3` to `7`), so the
previous snapshot is not retained: the update is partially applied. -/
theorem reconfigure_partial_update_counterexample :
    (cb_reconfigure 0 cfg0 ⟨some 1, some 7, none, some 1, some 2⟩).2
        = some (.keyError "goal_radius")
    ∧ cfg0.General.DESIRED_EPISODES = RFloat.fin 3
    ∧ (cb_reconfigure 0 cfg0 ⟨some 1, some 7, none, some 1, some 2⟩).1.General.DESIRED_EPISODES
        = RFloat.fin 7 := by
  refine ⟨rfl, rfl, ?_⟩
  decide

/-- C1 amended. If the payload is missing any expected key,
`_cb_reconfigure` raises a `KeyError` (the reconfiguration does not
complete), and the fields read after the first missing key keep their
previous values — `TIMEOUT`, assigned last, is always untouched — but
fields assigned before the missing key are already overwritten: the
update can be partially applied. -/
theorem reconfigure_missing_field_partial (entropy : ℤ) (cfg : TaskConfig)
    (p : ReconfigurePayload)
    (h : p.RANDOM_seed = none ∨ p.episodes = none ∨ p.goal_radius = none
      ∨ p.goal_tolerance_angle = none ∨ p.timeout = none) :
    (∃ k, (cb_reconfigure entropy cfg p).2 = some (.keyError k))
    ∧ (cb_reconfigure entropy cfg p).1.Robot.TIMEOUT = cfg.Robot.TIMEOUT
    ∧ (∀ s e, p.RANDOM_seed = some s → p.episodes = some e →
        (cb_reconfigure entropy cfg p).1.General.DESIRED_EPISODES
          = (if e < 0 then RFloat.inf else RFloat.fin e)) := by
  rcases p with ⟨s', e', gr', ga', t'⟩
  cases s' <;> cases e' <;> cases gr' <;> cases ga' <;> cases t' <;>
    simp_all [cb_reconfigure]

/-- Witness for the amended C1: a payload missing only `timeout` raises
`KeyError`, leaves `TIMEOUT` at its previous value, and has already
overwritten `DESIRED_EPISODES` with the new value `4`. -/
theorem reconfigure_missing_field_partial_witness :
    (cb_reconfigure 0 cfg0 ⟨some 2, some 4, some 1, some 1, none⟩).2
        = some (.keyError "timeout")
    ∧ (cb_reconfigure 0 cfg0 ⟨some 2, some 4, some 1, some 1, none⟩).1.Robot.TIMEOUT
        = cfg0.Robot.TIMEOUT
    ∧ (cb_reconfigure 0 cfg0 ⟨some 2, some 4, some 1, some 1, none⟩).1.General.DESIRED_EPISODES
        = RFloat.fin 4 := by
  have h := reconfigure_missing_field_partial 0 cfg0
    ⟨some 2, some 4, some 1, some 1, none⟩ (by simp)
  refine ⟨by decide, h.2.1, ?_⟩
  have h4 := h.2.2 2 4 rfl rfl
  simpa using h4

/-- C2. `after_reset_task` does not swallow a transport fault from the
resume call: the module never binds the name `rospy`, so evaluating the
`except rospy.service.ServiceException` clause raises `NameError`, which
propagates to the caller in place of the logged-and-swallowed behaviour
the code's comment intends. -/
theorem after_reset_task_fault_propagates :
    after_reset_task (.error .serviceException)
        = .error (.nameError "rospy")
    ∧ "rospy" ∉ gazeboModuleNames
    ∧ after_reset_task (.error .serviceException) ≠ .ok () := by
  have h1 : after_reset_task (.error .serviceException)
      = Except.error (PyError.nameError "rospy") := rfl
  refine ⟨h1, by decide, ?_⟩
  rw [h1]
  exact fun hcontra => Except.noConfusion hcontra

/-- C3 counterexample. With all four Gazebo services becoming available
only at time `100`, far beyond the configured `WAIT_FOR_SERVICE_TIMEOUT`
of `60` seconds, `GazeboSimulator.__init__` still completes its readiness
waits and the handle becomes ready — construction does not fail when the
wait exceeds the configured timeout, because `wait_for_service()` is
called with no timeout at all. -/
theorem gazebo_init_ignores_timeout_counterexample :
    gazebo_init_wait ⟨some 100, some 100, some 100, some 100⟩
        = ConstructionOutcome.ready 100
    ∧ cfg0.General.WAIT_FOR_SERVICE_TIMEOUT = 60
    ∧ (60 : ℚ) < 100 := by
  refine ⟨by decide, by decide, by norm_num⟩

/-- C3 amended. Construction waits for each remote service with no bound
at all: once every service is available — however long that takes,
regardless of the configured `WAIT_FOR_SERVICE_TIMEOUT` — the handle
becomes ready at the time the last service became available, and if any
service never becomes available, construction blocks forever instead of
failing. -/
theorem gazebo_init_wait_unbounded (s : ServiceAvailability) :
    (∀ t1 t2 t3 t4, s.spawn_entity = some t1 → s.delete_entity = some t2 →
      s.set_entity_pose = some t3 → s.control_world = some t4 →
      gazebo_init_wait s = .ready (max (max (max t1 t2) t3) t4))
    ∧ ((s.spawn_entity = none ∨ s.delete_entity = none
        ∨ s.set_entity_pose = none ∨ s.control_world = none) →
      gazebo_init_wait s = .blocked) := by
  rcases s with ⟨a, b, c, d⟩
  constructor
  · intro t1 t2 t3 t4 h1 h2 h3 h4
    simp only at h1 h2 h3 h4
    subst h1; subst h2; subst h3; subst h4
    simp [gazebo_init_wait, wait_for_service, Nat.max_comm, Nat.max_assoc,
      Nat.zero_max]
  · intro h
    cases a <;> cases b <;> cases c <;> cases d <;>
      simp_all [gazebo_init_wait, wait_for_service]

/-- Witness for the amended C3: services available at times 5, 7, 3, 9
give a ready handle at time 9; a spawn service that never becomes
available blocks construction forever. -/
theorem gazebo_init_wait_unbounded_witness :
    gazebo_init_wait ⟨some 5, some 7, some 3, some 9⟩
        = ConstructionOutcome.ready (max (max (max 5 7) 3) 9)
    ∧ gazebo_init_wait ⟨none, some 1, some 1, some 1⟩
        = ConstructionOutcome.blocked := by
  refine ⟨?_, ?_⟩
  · exact (gazebo_init_wait_unbounded ⟨some 5, some 7, some 3, some 9⟩).1
      5 7 3 9 rfl rfl rfl rfl
  · exact (gazebo_init_wait_unbounded ⟨none, some 1, some 1, some 1⟩).2
      (Or.inl rfl)

/-- C4. For a parameter configured with a two-element range `[lo, hi]`
with `lo ≤ hi`, resolving a null override draws exactly one fresh sample
from the shared generator's normal distribution with mean `(hi + lo) / 2`
and standard deviation `(hi - lo) / 6`, clamps it to `[lo, hi]` via
`min hi (max lo sample)`, and the clamped value lies in `[lo, hi]`. -/
theorem lp_range_resolve_clamped (lo hi : ℚ) (rest : List ℚ) (r : RNGRun)
    (h : lo ≤ hi) :
    lp (.list (lo :: hi :: rest)) = .ok (.range lo hi)
    ∧ lpResolve (.range lo hi) none r
        = (.num (min hi (max lo ((hi + lo) / 2 + (hi - lo) / 6 * r.stream r.pos))),
           ⟨r.stream, r.pos + 1⟩)
    ∧ lo ≤ min hi (max lo ((hi + lo) / 2 + (hi - lo) / 6 * r.stream r.pos))
    ∧ min hi (max lo ((hi + lo) / 2 + (hi - lo) / 6 * r.stream r.pos)) ≤ hi := by
  refine ⟨rfl, rfl, le_min h (le_max_left _ _), min_le_left _ _⟩

/-- Witness for C4 on the range `[0, 1]` with a raw stream that always
yields `5`: the sample `1/2 + (1/6) * 5` is clamped to `1`, one draw is
consumed, and the result lies in `[0, 1]`. -/
theorem lp_range_resolve_clamped_witness :
    lp (.list [0, 1]) = .ok (.range 0 1)
    ∧ lpResolve (.range 0 1) none ⟨fun _ => 5, 0⟩
        = (.num (min 1 (max 0 ((1 + 0) / 2 + (1 - 0) / 6 * 5))),
           ⟨fun _ => 5, 0 + 1⟩)
    ∧ (0 : ℚ) ≤ min 1 (max 0 ((1 + 0) / 2 + (1 - 0) / 6 * 5))
    ∧ min 1 (max 0 ((1 + 0) / 2 + (1 - 0) / 6 * 5)) ≤ 1 := by
  have h := lp_range_resolve_clamped 0 1 [] ⟨fun _ => 5, 0⟩ (by norm_num)
  simpa using h

/-- Helper: the `sxyz` Euler-to-quaternion conversion at roll = pitch = 0
collapses to a pure rotation about the vertical axis by the yaw angle. -/
theorem quaternion_from_euler_yaw_only (θ : ℝ) :
    quaternion_from_euler 0 0 θ
      = ⟨0, 0, Real.sin (θ / 2), Real.cos (θ / 2)⟩ := by
  simp [quaternion_from_euler]

/-- C8. Each pose-sending adapter operation (`move_entity`,
`spawn_entity`, `_publish_goal`) converts the domain's single orientation
angle at the call boundary into the quaternion
`(0, 0, sin(θ/2), cos(θ/2))` — a yaw-only rotation about the vertical
axis with roll = 0 and pitch = 0, obtained by passing `(0.0, 0.0, θ)` to
the Euler conversion. -/
theorem adapter_pose_yaw_only (p : PositionOrientation) :
    (move_entity_pose p).orientation = quaternion_from_euler 0 0 p.orientation
    ∧ (spawn_entity_pose p).orientation = quaternion_from_euler 0 0 p.orientation
    ∧ (publish_goal_pose p).orientation = quaternion_from_euler 0 0 p.orientation
    ∧ (move_entity_pose p).orientation
        = ⟨0, 0, Real.sin (p.orientation / 2), Real.cos (p.orientation / 2)⟩
    ∧ (spawn_entity_pose p).orientation
        = ⟨0, 0, Real.sin (p.orientation / 2), Real.cos (p.orientation / 2)⟩
    ∧ (publish_goal_pose p).orientation
        = ⟨0, 0, Real.sin (p.orientation / 2), Real.cos (p.orientation / 2)⟩ := by
  have h := quaternion_from_euler_yaw_only p.orientation
  exact ⟨rfl, rfl, rfl, h, h, h⟩

/-- Helper: all elements surviving `dropWhile p` satisfy `p` exactly when
all elements of the original list do. -/
theorem dropWhile_forall_iff (p : Char → Bool) (l : List Char) :
    (∀ x ∈ l.dropWhile p, p x) ↔ (∀ x ∈ l, p x) := by
  induction l with
  | nil => simp
  | cons a l ih =>
    by_cases h : p a
    · simp [List.dropWhile_cons, h, ih]
    · simp [List.dropWhile_cons, h]

/-- Helper: a string built from an explicit character list is empty
exactly when the list is. -/
theorem string_mk_eq_empty_iff (l : List Char) : (⟨l⟩ : String) = "" ↔ l = [] := by
  constructor
  · intro h
    exact congrArg String.data h
  · intro h
    rw [h]

/-- Helper: stripping a character from both ends yields the empty string
exactly when the string consists only of that character. -/
theorem pyStripChar_eq_empty_iff (s : String) (c : Char) :
    pyStripChar s c = "" ↔ ∀ ch ∈ s.data, ch = c := by
  unfold pyStripChar
  rw [string_mk_eq_empty_iff, List.reverse_eq_nil_iff, List.dropWhile_eq_nil_iff]
  simp only [List.mem_reverse]
  rw [dropWhile_forall_iff]
  simp

/-- Helper: character-wise replacement preserves emptiness. -/
theorem pyReplaceChar_eq_empty_iff (s : String) (a b : Char) :
    pyReplaceChar s a b = "" ↔ s = "" := by
  cases s with
  | mk d =>
    unfold pyReplaceChar
    rw [string_mk_eq_empty_iff, string_mk_eq_empty_iff]
    simp

/-- C10. A namespace that is empty or consists only of `/` characters
names the node `"gazebo_simulator"`; any other namespace names it the
namespace with leading and trailing `/` stripped and every remaining
(interior) `/` replaced by `_`. -/
theorem gazebo_node_name_characterization (ns : String) :
    ((∀ ch ∈ ns.data, ch = '/') → gazebo_node_name ns = "gazebo_simulator")
    ∧ ((∃ ch ∈ ns.data, ch ≠ '/') →
        gazebo_node_name ns = pyReplaceChar (pyStripChar ns '/') '/' '_') := by
  constructor
  · intro h
    have hs : pyStripChar ns '/' = "" := (pyStripChar_eq_empty_iff ns '/').2 h
    have hr : pyReplaceChar (pyStripChar ns '/') '/' '_' = "" := by
      rw [hs]; rfl
    simp [gazebo_node_name, hr]
  · intro h
    obtain ⟨ch, hch, hne⟩ := h
    have hs : pyStripChar ns '/' ≠ "" := by
      rw [Ne, pyStripChar_eq_empty_iff]
      push_neg
      exact ⟨ch, hch, hne⟩
    have hr : pyReplaceChar (pyStripChar ns '/') '/' '_' ≠ "" := by
      rw [Ne, pyReplaceChar_eq_empty_iff]
      exact hs
    simp [gazebo_node_name, hr]

/-- Witness for C10: the all-slash namespace `"///"` falls back to
`"gazebo_simulator"`, while `"/sim/gazebo/"` is stripped and its interior
slash replaced, yielding `"sim_gazebo"`. -/
theorem gazebo_node_name_characterization_witness :
    gazebo_node_name "///" = "gazebo_simulator"
    ∧ gazebo_node_name "/sim/gazebo/"
        = pyReplaceChar (pyStripChar "/sim/gazebo/" '/') '/' '_'
    ∧ pyReplaceChar (pyStripChar "/sim/gazebo/" '/') '/' '_' = "sim_gazebo" := by
  refine ⟨(gazebo_node_name_characterization "///").1 (by decide),
    (gazebo_node_name_characterization "/sim/gazebo/").2 ⟨'s', by decide, by decide⟩,
    by decide⟩

end ArenaRosnav
